import Mathlib

/-!
Verification development for the EduSense backend (src/main.py, src/schemas.py).

The service is shallowly embedded: documents are association lists of string
keys and dynamic values, the document store is a list of stored documents
with a monotone identifier counter, and each HTTP handler from main.py is a
pure Lean function over the store. The persistence adapter (database.py,
imported by main.py but not part of src/) is modelled from its documented
contract. External collaborators (hashlib sha256, bson ObjectId, the
language-model provider) are modelled abstractly: the provider is an
arbitrary function from the assembled message list to either an error or a
content string.
-/

namespace EduSense

/-- Dynamic value of a document field: a string, a null (Python None), or a
store-generated identifier (bson ObjectId, modelled as a natural number). -/
inductive Value where
  | vStr (s : String)
  | vNull
  | vId (n : Nat)
deriving DecidableEq, Repr

open Value

/-- String form of a value, as Python str() renders it when applied to a
popped identifier by to_public. -/
def valueStr : Value → String
  | vStr s => s
  | vNull => "None"
  | vId n => toString n

/-- A document: a Python dict, modelled as an association list whose keys
are unique (dict semantics are preserved by the helpers below). -/
abbrev Doc := List (String × Value)

/-- Python d.get(k): the value at key k, if the key is present. -/
def dictGet? (d : Doc) (k : String) : Option Value :=
  match d with
  | [] => none
  | (k0, v0) :: rest => if k0 = k then some v0 else dictGet? rest k

/-- Python d.get(k, default). -/
def dictGetD (d : Doc) (k : String) (v : Value) : Value :=
  (dictGet? d k).getD v

/-- Python del d[k] / d.pop(k): remove the (unique) binding of key k. -/
def dictRemove (d : Doc) (k : String) : Doc :=
  match d with
  | [] => []
  | (k0, v0) :: rest => if k0 = k then rest else (k0, v0) :: dictRemove rest k

/-- Python d[k] = v: overwrite in place if the key exists, else append. -/
def dictInsert (d : Doc) (k : String) (v : Value) : Doc :=
  match d with
  | [] => [(k, v)]
  | (k0, v0) :: rest => if k0 = k then (k0, v) :: rest else (k0, v0) :: dictInsert rest k v

/-- Lift an optional string to a field value (Python optional argument). -/
def optVal : Option String → Value
  | some s => vStr s
  | none => vNull

/-- A stored document: collection name, store-generated identifier, and the
fields supplied at creation. -/
structure StoredDoc where
  coll : String
  id : Nat
  fields : Doc
deriving DecidableEq, Repr

/-- The document store. Modelled from the spec: database.py exposes a
document database addressing records by collection name and an
auto-generated identifier; creation order is the created_at order. -/
structure Store where
  docs : List StoredDoc
  nextId : Nat
deriving DecidableEq, Repr

/-- The raw document as the driver returns it: the internal identifier under
the key _id together with the stored fields. -/
def rawDoc (d : StoredDoc) : Doc :=
  ("_id", vId d.id) :: d.fields

/-- A raw document matches a query filter when every filter pair is a field
of the document with that exact value. -/
def matchesFilter (d : Doc) (filter : Doc) : Bool :=
  filter.all fun kv => dictGet? d kv.1 = some kv.2

/-- Modelled from the spec: create_document(collection, fields) of
database.py inserts one document and returns the string form of its
store-generated identifier. -/
def create_document (st : Store) (coll : String) (fields : Doc) : String × Store :=
  (toString st.nextId,
   { docs := st.docs ++ [⟨coll, st.nextId, fields⟩], nextId := st.nextId + 1 })

/-- Modelled from the spec: get_documents(collection, filter) of database.py
returns all matching documents, in creation order, each including _id. -/
def get_documents (st : Store) (coll : String) (filter : Doc) : List Doc :=
  (st.docs.filter fun d => d.coll = coll && matchesFilter (rawDoc d) filter).map rawDoc

/-- Modelled from the spec: the driver find_one returns the first matching
document, or None. -/
def find_one (st : Store) (coll : String) (filter : Doc) : Option Doc :=
  (get_documents st coll filter).head?

/-- Modelled from the spec: find_one keyed on _id with a parsed ObjectId. -/
def find_one_by_id (st : Store) (coll : String) (oid : Nat) : Option Doc :=
  ((st.docs.filter fun d => d.coll = coll && d.id = oid).map rawDoc).head?

/-- Modelled from the spec: hashlib sha256 hexdigest (external library),
an unsalted single-pass deterministic digest; modelled as an abstract
injective-on-construction tagging function, since only determinism and
disagreement on distinct inputs are OTHERWISE observable to the service. -/
def hash_password (password : String) : String :=
  "sha256:" ++ password

/-- to_public of main.py: copy the document, pop _id if present, and expose
its string form under the public key id. -/
def to_public (doc : Doc) : Doc :=
  match dictGet? doc "_id" with
  | none => doc
  | some v => dictInsert (dictRemove doc "_id") "id" (vStr (valueStr v))

/-- An HTTP error raised by a handler (FastAPI HTTPException). -/
structure HTTPError where
  status : Nat
  detail : String
deriving DecidableEq, Repr

/-- Register request body of main.py. -/
structure RegisterRequest where
  name : String
  email : String
  password : String
deriving DecidableEq, Repr

/-- Login request body of main.py. -/
structure LoginRequest where
  email : String
  password : String
deriving DecidableEq, Repr

/-- Successful login response of main.py: user_id, name, email; name and
email are read back from the stored document with a None default. -/
structure LoginResponse where
  user_id : String
  name : Value
  email : Value
deriving DecidableEq, Repr

/-- register of main.py: reject a duplicate email with 400, else store the
password hash and return the new identifier. -/
def register (st : Store) (payload : RegisterRequest) :
    Except HTTPError (String × Store) :=
  let exists_ := get_documents st "user" [("email", vStr payload.email)]
  if exists_ ≠ [] then
    Except.error ⟨400, "Email already registered"⟩
  else
    let (user_id, st') := create_document st "user"
      [("name", vStr payload.name),
       ("email", vStr payload.email),
       ("password_hash", vStr (hash_password payload.password)),
       ("avatar_url", vNull)]
    Except.ok (user_id, st')

/-- login of main.py: 401 unless a user with the email exists and its stored
password_hash equals the hash of the supplied password. -/
def login (st : Store) (payload : LoginRequest) :
    Except HTTPError LoginResponse :=
  match find_one st "user" [("email", vStr payload.email)] with
  | none => Except.error ⟨401, "Invalid credentials"⟩
  | some user =>
    if dictGetD user "password_hash" vNull ≠ vStr (hash_password payload.password) then
      Except.error ⟨401, "Invalid credentials"⟩
    else
      Except.ok ⟨valueStr (dictGetD user "_id" vNull),
                 dictGetD user "name" vNull,
                 dictGetD user "email" vNull⟩

/-- list_materials of main.py. -/
def list_materials (st : Store) (user_id : String) : List Doc :=
  (get_documents st "material" [("user_id", vStr user_id)]).map to_public

/-- list_videos of main.py. -/
def list_videos (st : Store) (user_id : String) : List Doc :=
  (get_documents st "video" [("user_id", vStr user_id)]).map to_public

/-- The emotion label of one log entry, as emotion_summary reads it:
l.get with the default neutral. -/
def emotionLabel (l : Doc) : Value :=
  dictGetD l "emotion" (vStr "neutral")

/-- One step of the frequency loop of emotion_summary: freq at key e becomes
freq.get(e, 0) + 1, with Python dict update-in-place-or-append semantics. -/
def freqIncr (m : List (Value × Nat)) (k : Value) : List (Value × Nat) :=
  match m with
  | [] => [(k, 1)]
  | (k0, v0) :: rest => if k0 = k then (k0, v0 + 1) :: rest else (k0, v0) :: freqIncr rest k

/-- Sum of the counter values of a frequency dict (Python sum of values). -/
def freqSum (m : List (Value × Nat)) : Nat :=
  (m.map Prod.snd).sum

/-- Response of emotion_summary: the frequency dict, the distribution dict
(exact rationals standing for the Python floats), and the total. -/
structure SummaryResponse where
  frequency : List (Value × Nat)
  distribution : List (Value × ℚ)
  total : Nat
deriving DecidableEq, Repr

/-- All EmotionLog documents of one user, as emotion_summary reads them. -/
def userEmotionLogs (st : Store) (user_id : String) : List Doc :=
  get_documents st "emotionlog" [("user_id", vStr user_id)]

/-- Counter of a frequency dict at one key, 0 when the key is absent. -/
def freqGet (m : List (Value × Nat)) (k : Value) : Nat :=
  match m with
  | [] => 0
  | (k0, v0) :: rest => if k0 = k then v0 else freqGet rest k

/-- Sum of the distribution values (Python sum over dict values). -/
def distSum (m : List (Value × ℚ)) : ℚ :=
  (m.map Prod.snd).sum

/-- emotion_summary of main.py: frequency per label over all the user's
emotionlog documents, total = sum-of-counts or 1 when that sum is zero
(Python sum(...) or 1), distribution = count / total per key. -/
def emotion_summary (st : Store) (user_id : String) : SummaryResponse :=
  let logs := userEmotionLogs st user_id
  let freq := logs.foldl (fun m l => freqIncr m (emotionLabel l)) []
  let total := if freqSum freq = 0 then 1 else freqSum freq
  let growth := freq.map fun kv => (kv.1, (kv.2 : ℚ) / (total : ℚ))
  ⟨freq, growth, total⟩

/-- Adapt request body of main.py. -/
structure AdaptRequest where
  user_id : String
  material_id : Option String
  latest_emotion : String
deriving DecidableEq, Repr

/-- A policy record of the adaptation mapping: strategy, difficulty, and an
activities list exactly when the source dict carries the activities key. -/
structure Policy where
  strategy : String
  difficulty : String
  activities : Option (List String)
deriving DecidableEq, Repr

/-- The static emotion mapping of adapt_content, with mapping.get defaulting
to the neutral entry. -/
def policyFor (latest_emotion : String) : Policy :=
  if latest_emotion = "sad" then
    ⟨"Make it playful", "normal", some ["puzzle", "flashcards"]⟩
  else if latest_emotion = "confused" then
    ⟨"Simplify & add examples", "easy", none⟩
  else if latest_emotion = "angry" then
    ⟨"Calm & simplify", "easy", none⟩
  else if latest_emotion = "happy" then
    ⟨"Challenge more", "hard", none⟩
  else
    ⟨"Keep steady", "normal", none⟩

/-- Hexadecimal digit test for the ObjectId model. -/
def isHexChar (c : Char) : Bool :=
  c.isDigit || (97 ≤ c.toNat && c.toNat ≤ 102) || (65 ≤ c.toNat && c.toNat ≤ 70)

/-- Modelled from the spec: bson ObjectId(s) (external library) succeeds on a
24-character hexadecimal string and raises otherwise; the accepted strings
are mapped injectively to natural identifiers. -/
def parseObjectId (s : String) : Option Nat :=
  if s.data.length = 24 && s.data.all isHexChar then
    some (s.data.foldl (fun n c =>
      16 * n + (if c.isDigit then c.toNat - 48
                else if 97 ≤ c.toNat then c.toNat - 87 else c.toNat - 55)) 0)
  else
    none

/-- The material lookup of adapt_content: skipped when material_id is unset
or empty (Python truthiness), and any failure of ObjectId parsing or of the
driver lookup is caught and treated as absence. -/
def resolveMaterial (st : Store) (material_id : Option String) : Option Doc :=
  match material_id with
  | none => none
  | some s =>
    if s = "" then none
    else
      match parseObjectId s with
      | none => none
      | some oid => find_one_by_id st "material" oid

/-- Adapt response of main.py: the policy, the public material or None, and
the suggested_intro key present only when a material was found. -/
structure AdaptResponse where
  policy : Policy
  material : Option Doc
  suggested_intro : Option String
deriving DecidableEq, Repr

/-- adapt_content of main.py: emotion-keyed policy lookup with neutral
default, best-effort material fetch, and a difficulty-keyed intro header
added only when the material is present. The function is total: no input
makes it raise. -/
def adapt_content (st : Store) (payload : AdaptRequest) : AdaptResponse :=
  let rule := policyFor payload.latest_emotion
  let material := resolveMaterial st payload.material_id
  { policy := rule
    material := material.map to_public
    suggested_intro :=
      match material with
      | none => none
      | some _ =>
        some (if rule.difficulty = "easy" then "Step-by-step explanation: "
              else if rule.difficulty = "hard" then "Advanced challenge: "
              else if rule.activities.isSome then "Interactive mode: "
              else "Focus mode: ") }

/-- Python str.strip(): remove leading and trailing whitespace, modelled
over the character list so that it evaluates by kernel reduction. -/
def pyStrip (s : String) : String :=
  ⟨((s.data.dropWhile Char.isWhitespace).reverse.dropWhile Char.isWhitespace).reverse⟩

/-- Chat request body of main.py (class ChatMessageIn). -/
structure ChatMessageIn where
  user_id : String
  message : String
  emotion_hint : Option String
deriving DecidableEq, Repr

/-- The single-quote character, written by code point to keep source quoting
uniform. -/
def squote : String := String.singleton (Char.ofNat 39)

/-- The tone_map lookup of simple_fallback: tone_map.get(emotion_hint,
tone_map[None]); the None key and every unrecognized label give the
friendly-and-helpful tone. -/
def toneFor (emotion_hint : Option String) : String :=
  match emotion_hint with
  | none => "friendly and helpful"
  | some e =>
    if e = "sad" then "gentle and encouraging"
    else if e = "confused" then "clear and step-by-step"
    else if e = "angry" then "calm and concise"
    else if e = "happy" then "enthusiastic and challenging"
    else "friendly and helpful"

/-- simple_fallback of chat_with_assistant: the deterministic templated
reply built from the tone and the incoming message. -/
def simple_fallback (payload : ChatMessageIn) : String :=
  "In a " ++ toneFor payload.emotion_hint ++ " tone: I hear you said: " ++
    squote ++ payload.message ++ squote ++ ". Let" ++ squote ++
    "s work through this together."

/-- SYSTEM_PROMPT of main.py. -/
def SYSTEM_PROMPT : String :=
  "You are EduSense, an emotion-aware learning assistant. " ++
  "Your goal is to teach clearly and adaptively. " ++
  "Tone rules by emotion: sad=gently encouraging; confused=clear step-by-step with examples; " ++
  "angry=calm and concise; happy=enthusiastic and challenging; neutral=friendly and helpful. " ++
  "Always be supportive, focus on pedagogy (Socratic questions, bite-sized steps), and avoid long tangents."

/-- One chat-completion message: a role/content pair as assembled for the
provider request. -/
structure Msg where
  role : Value
  content : Value
deriving DecidableEq, Repr

/-- get_recent_chat_history of main.py: the user's chatmessage documents
sorted newest-first, bounded by limit, then reversed to oldest-first; role
defaults to user and content to the empty string. -/
def get_recent_chat_history (st : Store) (user_id : String) (limit : Nat) : List Msg :=
  let items0 := get_documents st "chatmessage" [("user_id", vStr user_id)]
  let items := (items0.reverse.take limit).reverse
  items.map fun it => ⟨dictGetD it "role" (vStr "user"), dictGetD it "content" (vStr "")⟩

/-- The message list chat_with_assistant forwards to the provider: the
system prefix (with the emotion sentence appended when a non-empty
emotion_hint was supplied, Python truthiness), the bounded history, then the
new user message. -/
def chatPrompt (st : Store) (payload : ChatMessageIn) : List Msg :=
  let system_prefix :=
    match payload.emotion_hint with
    | some h =>
      if h = "" then SYSTEM_PROMPT
      else SYSTEM_PROMPT ++ " Current learner emotional state: " ++ h ++
        ". Adjust tone accordingly."
    | none => SYSTEM_PROMPT
  ⟨vStr "system", vStr system_prefix⟩ ::
    get_recent_chat_history st payload.user_id 8 ++
      [⟨vStr "user", vStr payload.message⟩]

/-- Modelled from the spec: one call of the external language-model provider
(OpenAI client), seen from the service: either it raises (timeout, error
response, malformed output such as missing content) or it yields the content
string of the first choice. -/
def Provider := List Msg → Except Unit String

/-- The fields of the chatmessage document persisted for the incoming user
message. -/
def chatUserFields (payload : ChatMessageIn) : Doc :=
  [("user_id", vStr payload.user_id), ("role", vStr "user"),
   ("content", vStr payload.message), ("emotion_context", optVal payload.emotion_hint)]

/-- The fields of the chatmessage document persisted for the assistant
reply. -/
def chatAssistantFields (payload : ChatMessageIn) (reply : String) : Doc :=
  [("user_id", vStr payload.user_id), ("role", vStr "assistant"),
   ("content", vStr reply), ("emotion_context", optVal payload.emotion_hint)]

/-- chat_with_assistant of main.py: persist the user message, produce a
reply (provider content stripped of surrounding whitespace on success,
simple_fallback when no client is configured or the call raises), persist
the reply, and return it with the final store. -/
def chat_with_assistant (openai_client : Option Provider) (st : Store)
    (payload : ChatMessageIn) : String × Store :=
  let st1 := (create_document st "chatmessage" (chatUserFields payload)).2
  let reply :=
    match openai_client with
    | none => simple_fallback payload
    | some client =>
      match client (chatPrompt st1 payload) with
      | Except.ok content => pyStrip content
      | Except.error _ => simple_fallback payload
  let st2 := (create_document st1 "chatmessage" (chatAssistantFields payload reply)).2
  (reply, st2)

/-! ## Concrete objects used by witnesses -/

/-- The empty store. -/
def emptyStore : Store := ⟨[], 0⟩

/-- A concrete stored material document. -/
def matDoc : StoredDoc :=
  ⟨"material", 0,
   [("user_id", vStr "u"), ("title", vStr "t"), ("subject", vNull),
    ("content", vStr "c"), ("difficulty", vStr "normal")]⟩

/-- A concrete stored video document. -/
def vidDoc : StoredDoc :=
  ⟨"video", 1,
   [("user_id", vStr "u"), ("title", vStr "v"), ("subject", vNull),
    ("url", vStr "http://v")]⟩

/-- A store holding one material (identifier 0) and one video. -/
def pubStore : Store := ⟨[matDoc, vidDoc], 2⟩

/-- The 24-character hexadecimal string naming identifier 0. -/
def oid0 : String := "000000000000000000000000"

/-! ## C4, C5, C6: the Adapt operation -/

/-- C4: for every latest_emotion outside the five recognized labels, Adapt
returns exactly the same record as Adapt with latest_emotion neutral, all
other inputs equal: lookup is exact-match with neutral as the default. -/
theorem adapt_unrecognized_is_neutral (st : Store) (uid : String)
    (mid : Option String) (e : String)
    (h : e ∉ (["sad", "confused", "angry", "happy", "neutral"] : List String)) :
    adapt_content st ⟨uid, mid, e⟩ = adapt_content st ⟨uid, mid, "neutral"⟩ := by
  have hs : ¬(e = "sad" ∨ e = "confused" ∨ e = "angry" ∨ e = "happy" ∨ e = "neutral") := by
    simpa using h
  push_neg at hs
  obtain ⟨h1, h2, h3, h4, h5⟩ := hs
  simp [adapt_content, policyFor, h1, h2, h3, h4]

/-- Witness for C4 at the concrete unrecognized label bored. -/
theorem adapt_unrecognized_is_neutral_witness :
    adapt_content emptyStore ⟨"u", none, "bored"⟩ =
      adapt_content emptyStore ⟨"u", none, "neutral"⟩ :=
  adapt_unrecognized_is_neutral emptyStore "u" none "bored" (by decide)

/-- C5: whenever the material lookup fails (material_id unset, empty,
malformed, or naming no stored material), Adapt returns material None and
omits suggested_intro; adapt_content is a total function, so no input makes
it raise. -/
theorem adapt_missing_material (st : Store) (payload : AdaptRequest)
    (h : resolveMaterial st payload.material_id = none) :
    (adapt_content st payload).material = none ∧
      (adapt_content st payload).suggested_intro = none := by
  simp [adapt_content, h]

/-- Witness for C5 with a malformed identifier on the empty store. -/
theorem adapt_missing_material_witness :
    resolveMaterial emptyStore (some "zz") = none ∧
      (adapt_content emptyStore ⟨"u", some "zz", "happy"⟩).material = none ∧
      (adapt_content emptyStore ⟨"u", some "zz", "happy"⟩).suggested_intro = none :=
  ⟨by decide, adapt_missing_material emptyStore ⟨"u", some "zz", "happy"⟩ (by decide)⟩

/-- C6: whenever the material lookup succeeds, Adapt returns a
suggested_intro determined by the selected policy: Step-by-step explanation
for easy, Advanced challenge for hard, else Interactive mode when the policy
carries an activities list and Focus mode when it does not. -/
theorem adapt_found_material_intro (st : Store) (payload : AdaptRequest) (d : Doc)
    (h : resolveMaterial st payload.material_id = some d) :
    (adapt_content st payload).suggested_intro =
      some (if (policyFor payload.latest_emotion).difficulty = "easy" then
              "Step-by-step explanation: "
            else if (policyFor payload.latest_emotion).difficulty = "hard" then
              "Advanced challenge: "
            else if (policyFor payload.latest_emotion).activities.isSome then
              "Interactive mode: "
            else "Focus mode: ") := by
  simp [adapt_content, h]

/-- Witness for C6: the stored material resolves and a neutral policy yields
the Focus mode header. -/
theorem adapt_found_material_intro_witness :
    resolveMaterial pubStore (some oid0) = some (rawDoc matDoc) ∧
      (adapt_content pubStore ⟨"u", some oid0, "neutral"⟩).suggested_intro =
        some "Focus mode: " := by
  refine ⟨by decide, ?_⟩
  have h := adapt_found_material_intro pubStore ⟨"u", some oid0, "neutral"⟩
    (rawDoc matDoc) (by decide)
  simpa using h

/-! ## C7 and C1: the Chat operation -/

/-- The templated fallback reply is never the empty string. -/
theorem simple_fallback_ne_empty (payload : ChatMessageIn) :
    simple_fallback payload ≠ "" := by
  intro h
  have hlen := congrArg String.length h
  simp only [simple_fallback, String.length_append] at hlen
  have h5 : ("In a " : String).length = 5 := rfl
  have h0 : ("" : String).length = 0 := rfl
  rw [h5, h0] at hlen
  omega

/-- C7: on the fallback path (no configured provider, or the provider call
raising an error), the reply is exactly the template built from the tone
table, whose entries are the four fixed phrases with friendly-and-helpful
for an unset or unrecognized hint. -/
theorem chat_fallback_template (client : Option Provider) (st : Store)
    (payload : ChatMessageIn)
    (h : client = none ∨ ∃ f, client = some f ∧
      f (chatPrompt (create_document st "chatmessage" (chatUserFields payload)).2 payload) =
        Except.error ()) :
    (chat_with_assistant client st payload).1 =
      "In a " ++ toneFor payload.emotion_hint ++ " tone: I hear you said: " ++
        squote ++ payload.message ++ squote ++ ". Let" ++ squote ++
        "s work through this together." ∧
    toneFor (some "sad") = "gentle and encouraging" ∧
    toneFor (some "confused") = "clear and step-by-step" ∧
    toneFor (some "angry") = "calm and concise" ∧
    toneFor (some "happy") = "enthusiastic and challenging" ∧
    ∀ hint : Option String,
      (∀ s, hint = some s → s ∉ (["sad", "confused", "angry", "happy"] : List String)) →
      toneFor hint = "friendly and helpful" := by
  refine ⟨?_, rfl, rfl, rfl, rfl, ?_⟩
  · rcases h with rfl | ⟨f, rfl, hf⟩
    · rfl
    · simp [chat_with_assistant, hf, simple_fallback]
  · intro hint hh
    match hint with
    | none => rfl
    | some s =>
      have hs : ¬(s = "sad" ∨ s = "confused" ∨ s = "angry" ∨ s = "happy") := by
        simpa using hh s rfl
      push_neg at hs
      obtain ⟨h1, h2, h3, h4⟩ := hs
      simp [toneFor, h1, h2, h3, h4]

/-- Witness for C7: no provider configured, no emotion hint. -/
theorem chat_fallback_template_witness :
    (chat_with_assistant none emptyStore ⟨"u", "hi", none⟩).1 =
      "In a " ++ toneFor none ++ " tone: I hear you said: " ++ squote ++ "hi" ++
        squote ++ ". Let" ++ squote ++ "s work through this together." :=
  (chat_fallback_template none emptyStore ⟨"u", "hi", none⟩ (Or.inl rfl)).1

/-- C1 (amended): Chat always appends exactly two chatmessage documents for
the user, first the user message then the assistant reply, for every
provider behaviour; the reply is non-empty whenever no provider is
configured or the provider call raises. -/
theorem chat_inserts_two_messages (client : Option Provider) (st : Store)
    (payload : ChatMessageIn) :
    ((chat_with_assistant client st payload).2).docs =
      st.docs ++
        [⟨"chatmessage", st.nextId, chatUserFields payload⟩,
         ⟨"chatmessage", st.nextId + 1,
          chatAssistantFields payload (chat_with_assistant client st payload).1⟩] ∧
    ((client = none ∨ ∃ f, client = some f ∧
        f (chatPrompt (create_document st "chatmessage" (chatUserFields payload)).2 payload) =
          Except.error ()) →
      (chat_with_assistant client st payload).1 ≠ "") := by
  constructor
  · cases client with
    | none => simp [chat_with_assistant, create_document]
    | some f =>
      cases hf : f (chatPrompt (create_document st "chatmessage" (chatUserFields payload)).2
          payload) with
      | ok s => simp [chat_with_assistant, create_document, hf]
      | error e => simp [chat_with_assistant, create_document, hf]
  · rintro (rfl | ⟨f, rfl, hf⟩)
    · simpa [chat_with_assistant] using simple_fallback_ne_empty payload
    · simpa [chat_with_assistant, hf] using simple_fallback_ne_empty payload

/-- Witness for C1: with no provider configured, the two inserts happen and
the reply is non-empty. -/
theorem chat_inserts_two_messages_witness :
    ((chat_with_assistant none emptyStore ⟨"u", "hi", none⟩).2).docs =
      emptyStore.docs ++
        [⟨"chatmessage", emptyStore.nextId, chatUserFields ⟨"u", "hi", none⟩⟩,
         ⟨"chatmessage", emptyStore.nextId + 1,
          chatAssistantFields ⟨"u", "hi", none⟩
            (chat_with_assistant none emptyStore ⟨"u", "hi", none⟩).1⟩] ∧
    (chat_with_assistant none emptyStore ⟨"u", "hi", none⟩).1 ≠ "" :=
  ⟨(chat_inserts_two_messages none emptyStore ⟨"u", "hi", none⟩).1,
   (chat_inserts_two_messages none emptyStore ⟨"u", "hi", none⟩).2 (Or.inl rfl)⟩

/-- A provider behaviour that succeeds with empty content. -/
def providerEmptyReply : Option Provider := some fun _ => Except.ok ""

/-- Counterexample to C1 as stated: with a provider that succeeds with empty
content, the reply returned (and stored) is the empty string, so the reply
is not non-empty for every behaviour of the external provider. -/
theorem chat_nonempty_reply_cex :
    (chat_with_assistant providerEmptyReply emptyStore ⟨"u", "hi", none⟩).1 = "" := rfl

/-! ## C2 and C3: the EmotionSummary operation -/

/-- One frequency increment raises the sum of counters by one. -/
theorem freqSum_incr (m : List (Value × Nat)) (k : Value) :
    freqSum (freqIncr m k) = freqSum m + 1 := by
  induction m with
  | nil => rfl
  | cons hd tl ih =>
    obtain ⟨k0, v0⟩ := hd
    by_cases h : k0 = k
    · simp [freqIncr, freqSum, h]
      omega
    · simp [freqIncr, freqSum, h] at ih ⊢
      omega

/-- The frequency loop sums to the number of processed log entries. -/
theorem freqSum_fold (ls : List Doc) (m : List (Value × Nat)) :
    freqSum (ls.foldl (fun m l => freqIncr m (emotionLabel l)) m) =
      freqSum m + ls.length := by
  induction ls generalizing m with
  | nil => simp
  | cons a ls ih =>
    simp only [List.foldl_cons, List.length_cons]
    rw [ih, freqSum_incr]
    omega

/-- One frequency increment at key k raises the counter at k by one and
keeps every other counter. -/
theorem freqGet_incr (m : List (Value × Nat)) (k e : Value) :
    freqGet (freqIncr m k) e = freqGet m e + (if k = e then 1 else 0) := by
  induction m with
  | nil =>
    by_cases h : k = e <;> simp [freqIncr, freqGet, h]
  | cons hd tl ih =>
    obtain ⟨k0, v0⟩ := hd
    by_cases h : k0 = k
    · subst h
      by_cases h2 : k0 = e
      · subst h2; simp [freqIncr, freqGet]
      · have h3 : ¬k0 = e := h2
        simp [freqIncr, freqGet, h3]
    · by_cases h2 : k0 = e
      · subst h2
        have h3 : ¬k = k0 := fun he => h he.symm
        simp [freqIncr, freqGet, h, h3]
      · simp [freqIncr, freqGet, h, h2, ih]

/-- The frequency loop counts occurrences of each label. -/
theorem freqGet_fold (ls : List Doc) (m : List (Value × Nat)) (e : Value) :
    freqGet (ls.foldl (fun m l => freqIncr m (emotionLabel l)) m) e =
      freqGet m e + (ls.map emotionLabel).count e := by
  induction ls generalizing m with
  | nil => simp
  | cons a ls ih =>
    simp only [List.foldl_cons, List.map_cons, List.count_cons]
    rw [ih, freqGet_incr]
    by_cases h : emotionLabel a = e
    · simp [h]
      omega
    · simp [h, fun he : e = emotionLabel a => h he.symm]

/-- Dividing every counter by t divides the sum of counters by t. -/
theorem distSum_map_div (m : List (Value × Nat)) (t : ℚ) :
    distSum (m.map fun kv => (kv.1, (kv.2 : ℚ) / t)) = (freqSum m : ℚ) / t := by
  induction m with
  | nil => simp [distSum, freqSum]
  | cons hd tl ih =>
    simp only [distSum, freqSum, List.map_cons, List.sum_cons] at ih ⊢
    rw [ih]
    push_cast
    rw [add_div]

/-- C3: emotion_summary reads all the user's EmotionLog entries; its
frequency dict counts the occurrences of each label, its total is the sum of
the counts or 1 when that sum is zero, and its distribution is each count
divided by that total. -/
theorem emotion_summary_maps (st : Store) (uid : String) :
    (∀ e : Value, freqGet (emotion_summary st uid).frequency e =
      ((userEmotionLogs st uid).map emotionLabel).count e) ∧
    (emotion_summary st uid).total =
      (if freqSum (emotion_summary st uid).frequency = 0 then 1
       else freqSum (emotion_summary st uid).frequency) ∧
    (emotion_summary st uid).distribution =
      (emotion_summary st uid).frequency.map
        (fun kv => (kv.1, (kv.2 : ℚ) / ((emotion_summary st uid).total : ℚ))) := by
  refine ⟨fun e => ?_, ?_, ?_⟩
  · simpa [emotion_summary, freqGet] using
      freqGet_fold (userEmotionLogs st uid) [] e
  · simp [emotion_summary]
  · simp [emotion_summary]

/-- Counterexample to C2 as stated: a user with zero EmotionLog entries gets
total 1 with an empty frequency dict (sum 0, not equal to the total) and an
empty distribution (sum 0, although the total is positive). -/
theorem emotion_summary_zero_logs_cex :
    ¬(freqSum (emotion_summary emptyStore "u").frequency =
        (emotion_summary emptyStore "u").total ∧
      (0 < (emotion_summary emptyStore "u").total →
        distSum (emotion_summary emptyStore "u").distribution = 1)) := by
  intro h
  have h1 : freqSum (emotion_summary emptyStore "u").frequency = 0 := rfl
  have h2 : (emotion_summary emptyStore "u").total = 1 := rfl
  rw [h1, h2] at h
  exact absurd h.1 (by decide)

/-- C2 (amended): whenever the user has at least one EmotionLog entry, the
frequency counters sum to the returned total and the distribution values sum
exactly to 1; with zero entries both dicts are empty (sums 0) and the total
is 1. -/
theorem emotion_summary_sums (st : Store) (uid : String) :
    (userEmotionLogs st uid ≠ [] →
      freqSum (emotion_summary st uid).frequency = (emotion_summary st uid).total ∧
      distSum (emotion_summary st uid).distribution = 1) ∧
    (userEmotionLogs st uid = [] →
      (emotion_summary st uid).frequency = [] ∧
      (emotion_summary st uid).distribution = [] ∧
      (emotion_summary st uid).total = 1) := by
  have hfreq : (emotion_summary st uid).frequency =
      (userEmotionLogs st uid).foldl (fun m l => freqIncr m (emotionLabel l)) [] := rfl
  have htot0 : (emotion_summary st uid).total =
      (if freqSum ((userEmotionLogs st uid).foldl (fun m l => freqIncr m (emotionLabel l)) []) = 0
       then 1
       else freqSum ((userEmotionLogs st uid).foldl (fun m l => freqIncr m (emotionLabel l)) [])) :=
    rfl
  have hdist0 : (emotion_summary st uid).distribution =
      ((userEmotionLogs st uid).foldl (fun m l => freqIncr m (emotionLabel l)) []).map
        (fun kv => (kv.1, (kv.2 : ℚ) / ((emotion_summary st uid).total : ℚ))) := rfl
  constructor
  · intro h
    have hlen : (userEmotionLogs st uid).length ≠ 0 := by
      simpa using h
    have hsum : freqSum ((userEmotionLogs st uid).foldl
        (fun m l => freqIncr m (emotionLabel l)) []) = (userEmotionLogs st uid).length := by
      simpa [freqSum] using freqSum_fold (userEmotionLogs st uid) []
    have htot : (emotion_summary st uid).total = (userEmotionLogs st uid).length := by
      rw [htot0, hsum, if_neg hlen]
    constructor
    · rw [hfreq, htot, hsum]
    · rw [hdist0, distSum_map_div, hsum, htot, div_self (by exact_mod_cast hlen)]
  · intro h
    refine ⟨?_, ?_, ?_⟩
    · rw [hfreq, h]; rfl
    · rw [hdist0, h]; rfl
    · rw [htot0, h]; rfl

/-- A store holding a single EmotionLog entry for user u. -/
def oneLogStore : Store :=
  ⟨[⟨"emotionlog", 0,
     [("user_id", vStr "u"), ("emotion", vStr "happy"), ("note", vNull)]⟩], 1⟩

/-- Witness for C2 (amended) on a store with one happy log entry. -/
theorem emotion_summary_sums_witness :
    freqSum (emotion_summary oneLogStore "u").frequency =
      (emotion_summary oneLogStore "u").total ∧
    distSum (emotion_summary oneLogStore "u").distribution = 1 :=
  (emotion_summary_sums oneLogStore "u").1 (by decide)

/-! ## C8 and C9: Register and Login -/

/-- C8: when no User with the email exists, Register succeeds with a new
user_id and a following Login with the same email and password succeeds,
returning that user_id together with the registered name and email. -/
theorem register_login_roundtrip (st : Store) (p : RegisterRequest)
    (h : get_documents st "user" [("email", vStr p.email)] = []) :
    ∃ uid st', register st p = Except.ok (uid, st') ∧
      login st' ⟨p.email, p.password⟩ = Except.ok ⟨uid, vStr p.name, vStr p.email⟩ := by
  refine ⟨toString st.nextId,
    ⟨st.docs ++ [⟨"user", st.nextId,
      [("name", vStr p.name), ("email", vStr p.email),
       ("password_hash", vStr (hash_password p.password)), ("avatar_url", vNull)]⟩],
     st.nextId + 1⟩, ?_, ?_⟩
  · simp [register, h, create_document]
  · have h' := h
    simp only [get_documents] at h'
    have hfil := List.map_eq_nil_iff.mp h'
    simp only [login, find_one, get_documents, List.filter_append, hfil]
    simp [matchesFilter, rawDoc, dictGet?, dictGetD, valueStr]

/-- Witness for C8 on the empty store. -/
theorem register_login_roundtrip_witness :
    ∃ uid st', register emptyStore ⟨"Ana", "ana@x.com", "pw1"⟩ = Except.ok (uid, st') ∧
      login st' ⟨"ana@x.com", "pw1"⟩ = Except.ok ⟨uid, vStr "Ana", vStr "ana@x.com"⟩ :=
  register_login_roundtrip emptyStore ⟨"Ana", "ana@x.com", "pw1"⟩ rfl

/-- C9: a login that finds the email but mismatches on the password hash and
a login that finds no user fail with the identical response: status 401,
detail Invalid credentials; the two failures are indistinguishable. -/
theorem login_failure_indistinguishable (st1 st2 : Store) (p1 p2 : LoginRequest)
    (h1 : ∃ u, find_one st1 "user" [("email", vStr p1.email)] = some u ∧
      dictGetD u "password_hash" vNull ≠ vStr (hash_password p1.password))
    (h2 : find_one st2 "user" [("email", vStr p2.email)] = none) :
    login st1 p1 = Except.error ⟨401, "Invalid credentials"⟩ ∧
    login st2 p2 = Except.error ⟨401, "Invalid credentials"⟩ ∧
    login st1 p1 = login st2 p2 := by
  obtain ⟨u, hu, hne⟩ := h1
  have e1 : login st1 p1 = Except.error ⟨401, "Invalid credentials"⟩ := by
    simp [login, hu, hne]
  have e2 : login st2 p2 = Except.error ⟨401, "Invalid credentials"⟩ := by
    simp [login, h2]
  exact ⟨e1, e2, e1.trans e2.symm⟩

/-- The stored user document of the concrete registered user Ana. -/
def anaUserDoc : StoredDoc :=
  ⟨"user", 0,
   [("name", vStr "Ana"), ("email", vStr "ana@x.com"),
    ("password_hash", vStr (hash_password "pw1")), ("avatar_url", vNull)]⟩

/-- A store holding exactly the user Ana. -/
def anaStore : Store := ⟨[anaUserDoc], 1⟩

/-- Witness for C9: wrong password for Ana versus an unknown email. -/
theorem login_failure_indistinguishable_witness :
    login anaStore ⟨"ana@x.com", "wrong"⟩ = Except.error ⟨401, "Invalid credentials"⟩ ∧
    login emptyStore ⟨"bob@x.com", "pw"⟩ = Except.error ⟨401, "Invalid credentials"⟩ ∧
    login anaStore ⟨"ana@x.com", "wrong"⟩ = login emptyStore ⟨"bob@x.com", "pw"⟩ :=
  login_failure_indistinguishable anaStore emptyStore ⟨"ana@x.com", "wrong"⟩
    ⟨"bob@x.com", "pw"⟩ ⟨rawDoc anaUserDoc, by decide, by decide⟩ (by decide)

/-! ## C10: public projection of listed documents -/

/-- Lookup in a concatenation when the key is found on the left. -/
theorem dictGet?_append_left {a : Doc} (b : Doc) {k : String} {v : Value}
    (h : dictGet? a k = some v) : dictGet? (a ++ b) k = some v := by
  induction a with
  | nil => simp [dictGet?] at h
  | cons hd tl ih =>
    obtain ⟨k0, v0⟩ := hd
    by_cases hk : k0 = k
    · simp [dictGet?, hk] at h ⊢
      exact h
    · simp [dictGet?, hk] at h ⊢
      exact ih h

/-- Lookup in a concatenation when the key is absent on the left. -/
theorem dictGet?_append_right {a : Doc} (b : Doc) {k : String}
    (h : dictGet? a k = none) : dictGet? (a ++ b) k = dictGet? b k := by
  induction a with
  | nil => simp
  | cons hd tl ih =>
    obtain ⟨k0, v0⟩ := hd
    by_cases hk : k0 = k
    · simp [dictGet?, hk] at h
    · simp [dictGet?, hk] at h ⊢
      exact ih h

/-- Assigning a fresh key appends the binding at the end (dict insertion
order). -/
theorem dictInsert_of_absent {m : Doc} {k : String} (v : Value)
    (h : dictGet? m k = none) : dictInsert m k v = m ++ [(k, v)] := by
  induction m with
  | nil => rfl
  | cons hd tl ih =>
    obtain ⟨k0, v0⟩ := hd
    by_cases hk : k0 = k
    · simp [dictGet?, hk] at h
    · simp [dictGet?, hk] at h
      simp [dictInsert, hk, ih h]

/-- Well-formed store: no stored document carries a literal _id or id field
of its own; every service-created document satisfies this. -/
abbrev Store.WF (st : Store) : Prop :=
  ∀ d ∈ st.docs, dictGet? d.fields "_id" = none ∧ dictGet? d.fields "id" = none

/-- The public projection of a raw driver document: _id is gone, id holds
its string form, and every other field is untouched. -/
theorem to_public_rawDoc_spec (sd : StoredDoc)
    (h1 : dictGet? sd.fields "_id" = none) (h2 : dictGet? sd.fields "id" = none) :
    to_public (rawDoc sd) = sd.fields ++ [("id", vStr (valueStr (vId sd.id)))] ∧
    dictGet? (to_public (rawDoc sd)) "_id" = none ∧
    dictGet? (to_public (rawDoc sd)) "id" = some (vStr (valueStr (vId sd.id))) ∧
    ∀ k, k ≠ "_id" → k ≠ "id" → dictGet? (to_public (rawDoc sd)) k = dictGet? (rawDoc sd) k := by
  have hhead : dictGet? (rawDoc sd) "_id" = some (vId sd.id) := by
    simp [rawDoc, dictGet?]
  have hrem : dictRemove (rawDoc sd) "_id" = sd.fields := by
    simp [rawDoc, dictRemove]
  have hpub : to_public (rawDoc sd) = sd.fields ++ [("id", vStr (valueStr (vId sd.id)))] := by
    rw [to_public, hhead, hrem]
    exact dictInsert_of_absent _ h2
  refine ⟨hpub, ?_, ?_, ?_⟩
  · rw [hpub, dictGet?_append_right _ h1]
    simp [dictGet?]
  · rw [hpub, dictGet?_append_right _ h2]
    simp [dictGet?]
  · intro k hk1 hk2
    rw [hpub]
    have hraw : dictGet? (rawDoc sd) k = dictGet? sd.fields k := by
      show (if "_id" = k then some (vId sd.id) else dictGet? sd.fields k) = dictGet? sd.fields k
      rw [if_neg (fun he => hk1 he.symm)]
    rw [hraw]
    cases hf : dictGet? sd.fields k with
    | none =>
      rw [dictGet?_append_right _ hf]
      show (if "id" = k then some (vStr (valueStr (vId sd.id))) else dictGet? [] k) = none
      rw [if_neg (fun he => hk2 he.symm)]
      rfl
    | some v =>
      rw [dictGet?_append_left _ hf]

/-- C10: every object returned by ListMaterials or ListVideos is the public
projection of a stored document: _id is removed, id holds the string form of
the identifier, and every other field is present unchanged. -/
theorem list_public_id_projection (st : Store) (hwf : Store.WF st) (uid : String)
    (p : Doc) (hp : p ∈ list_materials st uid ∨ p ∈ list_videos st uid) :
    ∃ d, (d ∈ get_documents st "material" [("user_id", vStr uid)] ∨
          d ∈ get_documents st "video" [("user_id", vStr uid)]) ∧
      p = to_public d ∧
      dictGet? p "_id" = none ∧
      dictGet? p "id" = (dictGet? d "_id").map (fun v => vStr (valueStr v)) ∧
      ∀ k, k ≠ "_id" → k ≠ "id" → dictGet? p k = dictGet? d k := by
  have main : ∀ coll, p ∈ (get_documents st coll [("user_id", vStr uid)]).map to_public →
      ∃ d, d ∈ get_documents st coll [("user_id", vStr uid)] ∧
        p = to_public d ∧
        dictGet? p "_id" = none ∧
        dictGet? p "id" = (dictGet? d "_id").map (fun v => vStr (valueStr v)) ∧
        ∀ k, k ≠ "_id" → k ≠ "id" → dictGet? p k = dictGet? d k := by
    intro coll hmem
    obtain ⟨d, hd, rfl⟩ := List.mem_map.mp hmem
    obtain ⟨sd, hsd, rfl⟩ := List.mem_map.mp hd
    have hin : sd ∈ st.docs := (List.mem_filter.mp hsd).1
    obtain ⟨h1, h2⟩ := hwf sd hin
    obtain ⟨hpub, hnid, hid, hrest⟩ := to_public_rawDoc_spec sd h1 h2
    refine ⟨rawDoc sd, List.mem_map.mpr ⟨sd, hsd, rfl⟩, rfl, hnid, ?_, hrest⟩
    rw [hid]
    simp [rawDoc, dictGet?]
  rcases hp with hm | hv
  · obtain ⟨d, hd, hrest⟩ := main "material" hm
    exact ⟨d, Or.inl hd, hrest⟩
  · obtain ⟨d, hd, hrest⟩ := main "video" hv
    exact ⟨d, Or.inr hd, hrest⟩

/-- Witness for C10: the public material of the concrete two-document
store. -/
theorem list_public_id_projection_witness :
    Store.WF pubStore ∧
    (to_public (rawDoc matDoc) ∈ list_materials pubStore "u" ∨
      to_public (rawDoc matDoc) ∈ list_videos pubStore "u") ∧
    (∃ d, (d ∈ get_documents pubStore "material" [("user_id", vStr "u")] ∨
           d ∈ get_documents pubStore "video" [("user_id", vStr "u")]) ∧
      to_public (rawDoc matDoc) = to_public d ∧
      dictGet? (to_public (rawDoc matDoc)) "_id" = none ∧
      dictGet? (to_public (rawDoc matDoc)) "id" =
        (dictGet? d "_id").map (fun v => vStr (valueStr v)) ∧
      ∀ k, k ≠ "_id" → k ≠ "id" →
        dictGet? (to_public (rawDoc matDoc)) k = dictGet? d k) :=
  ⟨by decide, Or.inl (by decide),
   list_public_id_projection pubStore (by decide) "u" (to_public (rawDoc matDoc))
     (Or.inl (by decide))⟩

end EduSense
